import Mathlib

/-!
Formal model of the college-comparison feature of the College-Predictor
web application.

The `CompareColleges` page keeps its view state in a record
(`searchQuery`, `colleges`, `selectedColleges`, `branches`,
`selectedBranch`, `comparisonData`, `loading`, `error`).  Its event
handlers (`handleSearch`, `selectCollege`, `removeCollege`,
`handleCompare`, the branch dropdown `onChange`) are modelled as pure
functions from the state to a new state together with the network
request they emit, if any.  The tolerant chart renderer
(`ComparisonGraph.jsx`) and the statistics panel are modelled as pure
functions over the fetched comparison data; JavaScript numbers are
modelled as rationals, with explicit constructors for the
`null` / `undefined` / NaN cases that the renderer filters.
-/

namespace CollegePredictor

/-- A college as consumed by the comparison page; `college_code` is the
identifier used for deduplication and removal. -/
structure College where
  college_code : String
  college_name : String
  city : String
  deriving DecidableEq, Repr

/-- A branch offered across the selected colleges. -/
structure Branch where
  branch_code : String
  branch_name : String
  deriving DecidableEq, Repr

/-- The value (or year) field of a trend point as it arrives in JSON:
a number, `null`, `undefined`, or some other non-numeric value that
coerces to NaN. -/
inductive TrendVal where
  | num (q : ℚ)
  | null
  | undef
  | nanValue
  deriving DecidableEq, Repr

/-- The numeric content of a trend field, mirroring the renderer's
validity check `x !== undefined && x !== null && !isNaN(x)`. -/
def TrendVal.toNum? : TrendVal → Option ℚ
  | .num q => some q
  | _ => none

/-- A (year, value) pair of a college's cutoff trend series. -/
structure TrendPoint where
  year : TrendVal
  value : TrendVal
  deriving DecidableEq, Repr

/-- One college's entry in the fetched comparison data. -/
structure CollegeTrend where
  college_name : String
  trend : List TrendPoint
  deriving DecidableEq, Repr

/-- The payload stored in `comparisonData` after a successful compare. -/
structure ComparisonData where
  branch_code : String
  comparison : List CollegeTrend
  insights : List String
  deriving DecidableEq, Repr

/-- The `loading` record of independent flags. -/
structure LoadingFlags where
  search : Bool
  branches : Bool
  compare : Bool
  initial : Bool
  deriving DecidableEq, Repr

/-- The view state of the `CompareColleges` page. -/
structure CompareState where
  searchQuery : String
  colleges : List College
  selectedColleges : List College
  branches : List Branch
  selectedBranch : String
  comparisonData : Option ComparisonData
  loading : LoadingFlags
  error : String
  deriving DecidableEq, Repr

/-- The state produced by the `useState` initialisers. -/
def initialState : CompareState :=
  { searchQuery := ""
    colleges := []
    selectedColleges := []
    branches := []
    selectedBranch := ""
    comparisonData := none
    loading := { search := false, branches := false, compare := false, initial := true }
    error := "" }

/-- The body of a `POST /branches` request. -/
structure BranchRequest where
  college_codes : List String
  deriving DecidableEq, Repr

/-- The body of a `POST /compare` request. -/
structure CompareRequest where
  college_codes : List String
  branch_code : String
  deriving DecidableEq, Repr

/-- `selectCollege`: rejects a duplicate identifier or a fourth college
with an error message, otherwise appends the college, resets the query,
error and stored result, and emits a branch request once two or more
colleges are selected. -/
def selectCollege (s : CompareState) (college : College) : CompareState × Option BranchRequest :=
  if s.selectedColleges.any fun c => c.college_code == college.college_code then
    ({ s with error := "This college is already selected" }, none)
  else if 3 ≤ s.selectedColleges.length then
    ({ s with error := "Maximum 3 colleges can be selected" }, none)
  else
    let newSelection := s.selectedColleges ++ [college]
    let s1 := { s with
      selectedColleges := newSelection
      searchQuery := ""
      error := ""
      comparisonData := none }
    if 2 ≤ newSelection.length then
      (s1, some ⟨newSelection.map College.college_code⟩)
    else
      (s1, none)

/-- `removeCollege`: drops every selected college with the given code,
clears the stored result and the error, then either clears the branch
state (fewer than two remain) or re-emits a branch request. -/
def removeCollege (s : CompareState) (code : String) : CompareState × Option BranchRequest :=
  let newSelection := s.selectedColleges.filter fun c => !(c.college_code == code)
  let s1 := { s with
    selectedColleges := newSelection
    comparisonData := none
    error := "" }
  if newSelection.length < 2 then
    ({ s1 with branches := [], selectedBranch := "" }, none)
  else
    (s1, some ⟨newSelection.map College.college_code⟩)

/-- The synchronous part of `handleCompare` up to the fetch: validation,
then the compare request together with the loading/error updates. -/
def handleCompare (s : CompareState) : CompareState × Option CompareRequest :=
  if s.selectedColleges.length < 2 then
    ({ s with error := "Please select at least 2 colleges" }, none)
  else if s.selectedBranch == "" then
    ({ s with error := "Please select a branch" }, none)
  else
    ({ s with loading := { s.loading with compare := true }, error := "" },
     some ⟨s.selectedColleges.map College.college_code, s.selectedBranch⟩)

/-- The synchronous part of `handleSearch` up to the fetch: the query is
always stored; a query of length 1 short-circuits before any request. -/
def handleSearch (s : CompareState) (query : String) : CompareState × Option String :=
  let s1 := { s with searchQuery := query }
  if query.length < 2 ∧ 0 < query.length then
    (s1, none)
  else
    ({ s1 with loading := { s1.loading with search := true }, error := "" }, some query)

/-- The branch dropdown's `onChange` handler: it only stores the new
branch code. -/
def changeBranch (s : CompareState) (b : String) : CompareState :=
  { s with selectedBranch := b }

/-- A user interaction affecting the selected-college list. -/
inductive SelEvent where
  | sel (c : College)
  | rem (code : String)
  deriving DecidableEq, Repr

/-- Apply one selection event, discarding the emitted request. -/
def applyEvent (s : CompareState) : SelEvent → CompareState
  | .sel c => (selectCollege s c).1
  | .rem code => (removeCollege s code).1

/-- Run a sequence of selection events from a state. -/
def runEvents (s : CompareState) : List SelEvent → CompareState
  | [] => s
  | e :: es => runEvents (applyEvent s e) es

/-- A compare response as seen by `handleCompare`: the HTTP ok flag and
status, and the parsed body's `success`, `data`, `error` and `message`
fields (absent fields are `none`; a body that fails to parse has all
fields absent). -/
structure CompareResponse where
  ok : Bool
  status : Nat
  success : Bool
  data : Option ComparisonData
  error : Option String
  message : Option String
  deriving DecidableEq, Repr

/-- JavaScript truthiness of an optional string field: present and
non-empty. -/
def truthyStr : Option String → Bool
  | none => false
  | some s => !(s == "")

/-- The response-processing tail of `handleCompare`: the non-ok branch
throws `new Error(body.message || body.error || "HTTP <status>: Comparison
failed")` which the catch turns into the displayed error with the result
cleared; the ok branch stores the data when `success && data`, else
surfaces `body.error` when truthy, else a generic fallback, clearing the
result in both error paths.  The `finally` clears the compare loading
flag in every path. -/
def processCompareResponse (s : CompareState) (r : CompareResponse) : CompareState :=
  let base := { s with loading := { s.loading with compare := false } }
  if r.ok then
    if r.success ∧ r.data.isSome then
      { base with comparisonData := r.data }
    else if truthyStr r.error then
      { base with error := r.error.getD "", comparisonData := none }
    else
      { base with
        error := "Failed to compare colleges - invalid response format"
        comparisonData := none }
  else
    let thrown :=
      if truthyStr r.message then r.message.getD ""
      else if truthyStr r.error then r.error.getD ""
      else "HTTP " ++ toString r.status ++ ": Comparison failed"
    { base with error := thrown, comparisonData := none }

/-- A JavaScript number: either NaN or a rational. -/
inductive JSNum where
  | nan
  | num (q : ℚ)
  deriving DecidableEq, Repr

/-- Numeric coercion applied by `sum + t.value`: `null` coerces to 0,
`undefined` and other non-numeric values to NaN. -/
def TrendVal.coerce : TrendVal → JSNum
  | .num q => .num q
  | .null => .num 0
  | .undef => .nan
  | .nanValue => .nan

/-- JavaScript addition: NaN is absorbing. -/
def jsAdd : JSNum → JSNum → JSNum
  | .num a, .num b => .num (a + b)
  | _, _ => .nan

/-- Division of a JavaScript number by a list length; the statistics
panel only divides after checking `trend.length > 0`, so the zero case
is unreachable there. -/
def jsDivNat : JSNum → Nat → JSNum
  | .num a, n => if n = 0 then .nan else .num (a / n)
  | .nan, _ => .nan

/-- The Average cell of the Detailed Statistics panel:
`trend.length > 0 ? trend.reduce((sum, t) => sum + t.value, 0) /
trend.length : 'N/A'`; `none` models the "N/A" placeholder. -/
def averageStat (trend : List TrendPoint) : Option JSNum :=
  if 0 < trend.length then
    some (jsDivNat (trend.foldl (fun acc t => jsAdd acc t.value.coerce) (JSNum.num 0))
      trend.length)
  else none

/-- Modelled from the spec's words for comparison: the arithmetic mean
of all valid (numeric) values of the trend series, `none` when there is
no valid value. -/
def validValuesMean (trend : List TrendPoint) : Option ℚ :=
  let vs := trend.filterMap fun t => t.value.toNum?
  if 0 < vs.length then some (vs.sum / vs.length) else none

/-- Total height of the rendered SVG in pixels. -/
def graphHeight : ℚ := 320

/-- Top padding of the chart area. -/
def paddingTop : ℚ := 20

/-- Bottom padding of the chart area. -/
def paddingBottom : ℚ := 60

/-- Height of the drawable chart area
(`graphHeight - padding.top - padding.bottom`). -/
def chartHeight : ℚ := graphHeight - paddingTop - paddingBottom

/-- `allValues`: every valid trend value across the fetched colleges. -/
def collectValues (colleges : List CollegeTrend) : List ℚ :=
  colleges.flatMap fun c => c.trend.filterMap fun t => t.value.toNum?

/-- `allYears`: every valid trend year across the fetched colleges
(before deduplication and sorting). -/
def collectYears (colleges : List CollegeTrend) : List ℚ :=
  colleges.flatMap fun c => c.trend.filterMap fun t => t.year.toNum?

/-- `Math.min(...l)` over a non-empty list, `none` when empty. -/
def listMin : List ℚ → Option ℚ
  | [] => none
  | x :: xs => some (xs.foldl min x)

/-- `Math.max(...l)` over a non-empty list, `none` when empty. -/
def listMax : List ℚ → Option ℚ
  | [] => none
  | x :: xs => some (xs.foldl max x)

/-- `range = Math.max(maxVal - minVal, 1)`. -/
def rangeOf (mn mx : ℚ) : ℚ := max (mx - mn) 1

/-- The value part of the renderer's validity filter. -/
def hasNumValue (t : TrendPoint) : Bool := t.value.toNum?.isSome

/-- The renderer's per-college filter: points whose year and value are
both valid, as (year, value) pairs. -/
def validPointsRaw (trend : List TrendPoint) : List (ℚ × ℚ) :=
  trend.filterMap fun t =>
    match t.year.toNum?, t.value.toNum? with
    | some y, some v => some (y, v)
    | _, _ => none

/-- `validPoints`: the valid points of one college sorted by year
ascending. -/
def validPoints (trend : List TrendPoint) : List (ℚ × ℚ) :=
  (validPointsRaw trend).mergeSort fun a b => a.1 ≤ b.1

/-- The vertical pixel coordinate of a plotted value:
`padding.top + chartHeight - ((v - minVal) / range) * chartHeight`. -/
def pointY (mn mx v : ℚ) : ℚ :=
  paddingTop + chartHeight - (v - mn) / rangeOf mn mx * chartHeight

/-- Drop the points with invalid values from one college's series. -/
def dropInvalidValues (c : CollegeTrend) : CollegeTrend :=
  { c with trend := c.trend.filter hasNumValue }

/-- A concrete college used in witnesses. -/
def collegeA : College := { college_code := "A", college_name := "Alpha", city := "Pune" }

/-- A concrete college used in witnesses. -/
def collegeB : College := { college_code := "B", college_name := "Beta", city := "Mumbai" }

/-- A concrete college used in witnesses. -/
def collegeC : College := { college_code := "C", college_name := "Gamma", city := "Nagpur" }

/-- A concrete college used in witnesses. -/
def collegeD : College := { college_code := "D", college_name := "Delta", city := "Nashik" }

/-- A state with three colleges already selected. -/
def fullState : CompareState :=
  { initialState with selectedColleges := [collegeA, collegeB, collegeC] }

/-- A state with exactly colleges A and B selected and branch "CS"
chosen. -/
def twoSelectedState : CompareState :=
  { initialState with
    selectedColleges := [collegeA, collegeB]
    branches := [⟨"CS", "Computer Science"⟩]
    selectedBranch := "CS" }

/-- A state with three colleges selected. -/
def threeSelectedState : CompareState :=
  { twoSelectedState with selectedColleges := [collegeA, collegeB, collegeC] }

/-- A stored comparison result for branch "CS". -/
def sampleResult : ComparisonData :=
  { branch_code := "CS", comparison := [], insights := [] }

/-- A state that has just displayed a comparison for branch "CS". -/
def branchChangeState : CompareState :=
  { initialState with
    selectedColleges := [collegeA, collegeB]
    branches := [⟨"CS", "Computer Science"⟩, ⟨"ME", "Mechanical"⟩]
    selectedBranch := "CS"
    comparisonData := some sampleResult }

/-- A non-2xx response whose body carries both a `message` and an
`error` field. -/
def bothFieldsResponse : CompareResponse :=
  { ok := false
    status := 500
    success := false
    data := none
    error := some "no data"
    message := some "internal failure" }

/-- A 2xx response carrying `{success:false, error:"no data"}`. -/
def noDataResponse : CompareResponse :=
  { ok := true
    status := 200
    success := false
    data := none
    error := some "no data"
    message := none }

/-- A trend series with one valid value and one `null` value. -/
def statTrend : List TrendPoint :=
  [⟨.num 2021, .num 90⟩, ⟨.num 2022, .null⟩]

/-- A trend series whose points are all numeric. -/
def allValidTrend : List TrendPoint :=
  [⟨.num 2021, .num 90⟩, ⟨.num 2022, .num 80⟩]

/-- A fetched comparison whose single college has one trend point, so
the value minimum and maximum coincide. -/
def singleValueCollege : CollegeTrend :=
  { college_name := "Alpha", trend := [⟨.num 2021, .num 95⟩] }

/-- The comparison list holding only `singleValueCollege`. -/
def singleValueData : List CollegeTrend := [singleValueCollege]

lemma selectCollege_selection_cases (s : CompareState) (c : College) :
    ((selectCollege s c).1.selectedColleges = s.selectedColleges ∧
      (selectCollege s c).1.error ≠ "") ∨
    ((selectCollege s c).1.selectedColleges = s.selectedColleges ++ [c] ∧
      s.selectedColleges.length + 1 ≤ 3) := by
  by_cases h1 : s.selectedColleges.any fun x => x.college_code == c.college_code
  · left
    constructor
    · simp [selectCollege, h1]
    · simp [selectCollege, h1]
  · by_cases h2 : 3 ≤ s.selectedColleges.length
    · left
      constructor
      · simp [selectCollege, h1, h2]
      · simp [selectCollege, h1, h2]
    · right
      refine ⟨?_, by omega⟩
      simp only [selectCollege]
      rw [if_neg h1, if_neg h2]
      split <;> rfl

lemma removeCollege_selection (s : CompareState) (code : String) :
    (removeCollege s code).1.selectedColleges =
      s.selectedColleges.filter fun c => !(c.college_code == code) := by
  by_cases h : (s.selectedColleges.filter fun c => !(c.college_code == code)).length < 2 <;>
    simp [removeCollege, h]

lemma applyEvent_length_le (s : CompareState) (e : SelEvent)
    (h : s.selectedColleges.length ≤ 3) : (applyEvent s e).selectedColleges.length ≤ 3 := by
  cases e with
  | sel c =>
    rcases selectCollege_selection_cases s c with ⟨heq, _⟩ | ⟨heq, hle⟩ <;>
      simp [applyEvent, heq] <;> omega
  | rem code =>
    have := removeCollege_selection s code
    simp only [applyEvent, this]
    calc (s.selectedColleges.filter fun c => !(c.college_code == code)).length
        ≤ s.selectedColleges.length := List.length_filter_le _ _
      _ ≤ 3 := h

lemma runEvents_length_le (evs : List SelEvent) :
    ∀ s : CompareState, s.selectedColleges.length ≤ 3 →
      (runEvents s evs).selectedColleges.length ≤ 3 := by
  induction evs with
  | nil => intro s h; exact h
  | cons e es ih => intro s h; exact ih _ (applyEvent_length_le s e h)

lemma toNum_isSome (v : TrendVal) (h : (TrendVal.toNum? v).isSome = true) :
    ∃ q, v = .num q := by
  cases v <;> simp [TrendVal.toNum?] at h ⊢

lemma foldl_jsAdd_valid (trend : List TrendPoint) (a : ℚ)
    (h : ∀ p ∈ trend, (TrendVal.toNum? p.value).isSome = true) :
    trend.foldl (fun acc t => jsAdd acc t.value.coerce) (JSNum.num a)
      = JSNum.num (a + (trend.filterMap fun t => t.value.toNum?).sum) := by
  induction trend generalizing a with
  | nil => simp
  | cons p ps ih =>
    obtain ⟨q, hq⟩ := toNum_isSome p.value (h p (List.mem_cons_self p ps))
    have hrest : ∀ x ∈ ps, (TrendVal.toNum? x.value).isSome = true :=
      fun x hx => h x (List.mem_cons_of_mem p hx)
    have hstep : jsAdd (JSNum.num a) p.value.coerce = JSNum.num (a + q) := by
      rw [hq]; rfl
    rw [List.foldl_cons, hstep, ih (a + q) hrest, List.filterMap_cons, hq]
    simp [TrendVal.toNum?, add_assoc]

lemma filterMap_length_all_valid (trend : List TrendPoint)
    (h : ∀ p ∈ trend, (TrendVal.toNum? p.value).isSome = true) :
    (trend.filterMap fun t => t.value.toNum?).length = trend.length := by
  induction trend with
  | nil => rfl
  | cons p ps ih =>
    obtain ⟨q, hq⟩ := toNum_isSome p.value (h p (List.mem_cons_self p ps))
    have ihh := ih (fun x hx => h x (List.mem_cons_of_mem p hx))
    have hfa : TrendVal.toNum? p.value = some q := by rw [hq]; rfl
    simp only [List.filterMap_cons, hfa, List.length_cons, ihh]

lemma hasNumValue_false_toNum (t : TrendPoint) (h : hasNumValue t = false) :
    t.value.toNum? = none := by
  cases hv : t.value <;> simp [hasNumValue, TrendVal.toNum?, hv] at h ⊢

lemma filterMap_filter_hasNumValue {β : Type} (f : TrendPoint → Option β)
    (hf : ∀ t, hasNumValue t = false → f t = none) (l : List TrendPoint) :
    (l.filter hasNumValue).filterMap f = l.filterMap f := by
  induction l with
  | nil => rfl
  | cons p ps ih =>
    by_cases hp : hasNumValue p
    · simp [List.filter_cons, hp, List.filterMap_cons, ih]
    · have hfalse : hasNumValue p = false := by simpa using hp
      simp [List.filter_cons, hfalse, List.filterMap_cons, hf p hfalse, ih]

lemma collectValues_dropInvalid (cs : List CollegeTrend) :
    collectValues (cs.map dropInvalidValues) = collectValues cs := by
  induction cs with
  | nil => rfl
  | cons c cs ih =>
    simp only [collectValues, List.map_cons, List.flatMap_cons] at ih ⊢
    rw [ih]
    congr 1
    exact filterMap_filter_hasNumValue _ hasNumValue_false_toNum c.trend

lemma validPointsRaw_filter (trend : List TrendPoint) :
    validPointsRaw (trend.filter hasNumValue) = validPointsRaw trend := by
  apply filterMap_filter_hasNumValue
  intro t ht
  have hval := hasNumValue_false_toNum t ht
  cases hy : t.year.toNum? <;> simp [hy, hval]

lemma foldl_min_le_init (xs : List ℚ) : ∀ a : ℚ, xs.foldl min a ≤ a := by
  induction xs with
  | nil => intro a; simp
  | cons x xs ih =>
    intro a
    calc (x :: xs).foldl min a = xs.foldl min (min a x) := rfl
      _ ≤ min a x := ih (min a x)
      _ ≤ a := min_le_left a x

lemma foldl_min_le_of_mem (xs : List ℚ) : ∀ a v : ℚ, v ∈ xs → xs.foldl min a ≤ v := by
  induction xs with
  | nil => intro a v hv; exact absurd hv (List.not_mem_nil v)
  | cons x xs ih =>
    intro a v hv
    rcases List.mem_cons.mp hv with h | h
    · subst h
      calc (v :: xs).foldl min a = xs.foldl min (min a v) := rfl
        _ ≤ min a v := foldl_min_le_init xs (min a v)
        _ ≤ v := min_le_right a v
    · exact ih (min a x) v h

lemma le_foldl_max_init (xs : List ℚ) : ∀ a : ℚ, a ≤ xs.foldl max a := by
  induction xs with
  | nil => intro a; simp
  | cons x xs ih =>
    intro a
    calc a ≤ max a x := le_max_left a x
      _ ≤ xs.foldl max (max a x) := ih (max a x)
      _ = (x :: xs).foldl max a := rfl

lemma le_foldl_max_of_mem (xs : List ℚ) : ∀ a v : ℚ, v ∈ xs → v ≤ xs.foldl max a := by
  induction xs with
  | nil => intro a v hv; exact absurd hv (List.not_mem_nil v)
  | cons x xs ih =>
    intro a v hv
    rcases List.mem_cons.mp hv with h | h
    · subst h
      calc v ≤ max a v := le_max_right a v
        _ ≤ xs.foldl max (max a v) := le_foldl_max_init xs (max a v)
        _ = (v :: xs).foldl max a := rfl
    · exact ih (max a x) v h

lemma listMin_le (l : List ℚ) (mn : ℚ) (h : listMin l = some mn) :
    ∀ v ∈ l, mn ≤ v := by
  cases l with
  | nil => simp [listMin] at h
  | cons x xs =>
    intro v hv
    have hmn : mn = xs.foldl min x := by
      have := h.symm
      simpa [listMin] using this
    subst hmn
    rcases List.mem_cons.mp hv with h2 | h2
    · subst h2
      exact foldl_min_le_init xs v
    · exact foldl_min_le_of_mem xs x v h2

lemma le_listMax (l : List ℚ) (mx : ℚ) (h : listMax l = some mx) :
    ∀ v ∈ l, v ≤ mx := by
  cases l with
  | nil => simp [listMax] at h
  | cons x xs =>
    intro v hv
    have hmx : mx = xs.foldl max x := by
      have := h.symm
      simpa [listMax] using this
    subst hmx
    rcases List.mem_cons.mp hv with h2 | h2
    · subst h2
      exact le_foldl_max_init xs v
    · exact le_foldl_max_of_mem xs x v h2

lemma validPoints_value_mem (cs : List CollegeTrend) (c : CollegeTrend) (hc : c ∈ cs)
    (y v : ℚ) (hm : (y, v) ∈ validPoints c.trend) : v ∈ collectValues cs := by
  have hraw : (y, v) ∈ validPointsRaw c.trend :=
    (List.mergeSort_perm (validPointsRaw c.trend) _).mem_iff.mp hm
  obtain ⟨t, ht, hft⟩ := List.mem_filterMap.mp hraw
  have hval : t.value.toNum? = some v := by
    cases hy : t.year.toNum? <;> cases hv2 : t.value.toNum? <;>
      simp [hy, hv2] at hft
    exact hft.2 ▸ rfl
  have hin : v ∈ c.trend.filterMap fun t => t.value.toNum? :=
    List.mem_filterMap.mpr ⟨t, ht, hval⟩
  exact List.mem_flatMap.mpr ⟨c, hc, hin⟩

/-- C1 counterexample: selecting branch "ME" after comparing branch "CS"
changes the selected branch but does not clear the stored comparison
result, refuting the clause that the result is cleared whenever the
selected branch changes. -/
theorem branch_change_keeps_stale_result :
    (changeBranch branchChangeState "ME").selectedBranch ≠ branchChangeState.selectedBranch ∧
    (changeBranch branchChangeState "ME").comparisonData = some sampleResult := by
  constructor
  · decide
  · rfl

/-- C1 (amended): the stored comparison result is cleared whenever the
selected-college set changes (a successful `selectCollege` or any
`removeCollege`), but changing the selected branch leaves the stored
result untouched. -/
theorem comparison_cleared_on_selection_change :
    (∀ (s : CompareState) (c : College),
      (selectCollege s c).1.selectedColleges ≠ s.selectedColleges →
      (selectCollege s c).1.comparisonData = none) ∧
    (∀ (s : CompareState) (code : String),
      (removeCollege s code).1.comparisonData = none) ∧
    (∀ (s : CompareState) (b : String),
      (changeBranch s b).comparisonData = s.comparisonData) := by
  refine ⟨?_, ?_, fun s b => rfl⟩
  · intro s c hne
    by_cases h1 : s.selectedColleges.any fun x => x.college_code == c.college_code
    · exact absurd (by simp [selectCollege, h1]) hne
    · by_cases h2 : 3 ≤ s.selectedColleges.length
      · exact absurd (by simp [selectCollege, h1, h2]) hne
      · simp only [selectCollege]
        rw [if_neg h1, if_neg h2]
        split <;> rfl
  · intro s code
    by_cases h : (s.selectedColleges.filter fun c => !(c.college_code == code)).length < 2 <;>
      simp [removeCollege, h]

/-- C1 witness: the amended theorem applied to adding college B to a
state holding only college A, and to removing college A from it. -/
theorem comparison_cleared_on_selection_change_witness :
    (selectCollege { initialState with selectedColleges := [collegeA] } collegeB).1.comparisonData
        = none ∧
    (removeCollege { initialState with selectedColleges := [collegeA] } "A").1.comparisonData
        = none ∧
    (changeBranch branchChangeState "ME").comparisonData = branchChangeState.comparisonData :=
  ⟨comparison_cleared_on_selection_change.1 _ collegeB (by decide),
    comparison_cleared_on_selection_change.2.1 _ "A",
    comparison_cleared_on_selection_change.2.2 branchChangeState "ME"⟩

/-- C2: for every sequence of `selectCollege` / `removeCollege` calls the
selected-college list never exceeds 3 elements, and calling
`selectCollege` with 3 colleges already selected leaves the selection
unchanged and sets a non-empty user-visible error message. -/
theorem selection_capped_at_three :
    (∀ evs : List SelEvent, (runEvents initialState evs).selectedColleges.length ≤ 3) ∧
    (∀ (s : CompareState) (c : College), s.selectedColleges.length = 3 →
      (selectCollege s c).1.selectedColleges = s.selectedColleges ∧
      (selectCollege s c).1.error ≠ "") := by
  constructor
  · intro evs
    exact runEvents_length_le evs initialState (by simp [initialState])
  · intro s c h
    rcases selectCollege_selection_cases s c with ⟨heq, herr⟩ | ⟨_, hle⟩
    · exact ⟨heq, herr⟩
    · omega

/-- C2 witness: the cap theorem applied to a concrete four-selection
event sequence and to a concrete full state. -/
theorem selection_capped_at_three_witness :
    (runEvents initialState
      [SelEvent.sel collegeA, SelEvent.sel collegeB, SelEvent.sel collegeC,
        SelEvent.sel collegeD]).selectedColleges.length ≤ 3 ∧
    ((selectCollege fullState collegeD).1.selectedColleges = fullState.selectedColleges ∧
      (selectCollege fullState collegeD).1.error ≠ "") :=
  ⟨selection_capped_at_three.1 _, selection_capped_at_three.2 fullState collegeD (by decide)⟩

/-- C3: when fewer than 2 colleges are selected or no branch is chosen,
`handleCompare` emits no request, sets a non-empty validation message,
and changes nothing but the error field. -/
theorem handleCompare_validation_no_request :
    ∀ s : CompareState, s.selectedColleges.length < 2 ∨ s.selectedBranch = "" →
      (handleCompare s).2 = none ∧
      (handleCompare s).1 = { s with error := (handleCompare s).1.error } ∧
      (handleCompare s).1.error ≠ "" := by
  intro s h
  by_cases h1 : s.selectedColleges.length < 2
  · refine ⟨by simp [handleCompare, h1], by simp [handleCompare, h1], by simp [handleCompare, h1]⟩
  · rcases h with h | h
    · exact absurd h h1
    · refine ⟨by simp [handleCompare, h1, h], by simp [handleCompare, h1, h],
        by simp [handleCompare, h1, h]⟩

/-- C3 witness: the validation theorem applied to the initial state,
which has no selected colleges. -/
theorem handleCompare_validation_no_request_witness :
    (handleCompare initialState).2 = none ∧
    (handleCompare initialState).1 =
      { initialState with error := (handleCompare initialState).1.error } ∧
    (handleCompare initialState).1.error ≠ "" :=
  handleCompare_validation_no_request initialState (Or.inl (by decide))

/-- C4 counterexample: for a non-2xx response whose body's `error` field
is present ("no data"), the displayed text is the body's `message` field
("internal failure"), not the error field, refuting the clause that an
error response surfaces the body's own error field whenever it is
present. -/
theorem error_field_not_always_surfaced :
    truthyStr bothFieldsResponse.error = true ∧
    (processCompareResponse branchChangeState bothFieldsResponse).error = "internal failure" ∧
    (processCompareResponse branchChangeState bothFieldsResponse).error ≠ "no data" := by
  refine ⟨rfl, rfl, ?_⟩
  decide

/-- C4 (amended): a 2xx body `{success:false, error:"no data"}` displays
exactly "no data" and clears the stored result; a 2xx error body
surfaces its `error` field when truthy, else a generic fallback; a
non-2xx response surfaces the body's `message` field when truthy, then
its `error` field, else an HTTP-status fallback; and every response that
does not store fresh data clears the previously stored result. -/
theorem compare_error_handling :
    (∀ (s : CompareState) (r : CompareResponse), r.ok = true → r.success = false →
      r.error = some "no data" →
      (processCompareResponse s r).error = "no data" ∧
      (processCompareResponse s r).comparisonData = none) ∧
    (∀ (s : CompareState) (r : CompareResponse), r.ok = true →
      (r.success = false ∨ r.data = none) → truthyStr r.error = true →
      (processCompareResponse s r).error = r.error.getD "" ∧
      (processCompareResponse s r).comparisonData = none) ∧
    (∀ (s : CompareState) (r : CompareResponse), r.ok = true →
      (r.success = false ∨ r.data = none) → truthyStr r.error = false →
      (processCompareResponse s r).error
          = "Failed to compare colleges - invalid response format" ∧
      (processCompareResponse s r).comparisonData = none) ∧
    (∀ (s : CompareState) (r : CompareResponse), r.ok = false →
      truthyStr r.message = true →
      (processCompareResponse s r).error = r.message.getD "" ∧
      (processCompareResponse s r).comparisonData = none) ∧
    (∀ (s : CompareState) (r : CompareResponse), r.ok = false →
      truthyStr r.message = false → truthyStr r.error = true →
      (processCompareResponse s r).error = r.error.getD "" ∧
      (processCompareResponse s r).comparisonData = none) ∧
    (∀ (s : CompareState) (r : CompareResponse), r.ok = false →
      truthyStr r.message = false → truthyStr r.error = false →
      (processCompareResponse s r).error
          = "HTTP " ++ toString r.status ++ ": Comparison failed" ∧
      (processCompareResponse s r).comparisonData = none) ∧
    (∀ (s : CompareState) (r : CompareResponse),
      ¬(r.ok = true ∧ r.success = true ∧ r.data.isSome = true) →
      (processCompareResponse s r).comparisonData = none) := by
  refine ⟨?_, ?_, ?_, ?_, ?_, ?_, ?_⟩
  · intro s r hok hsucc herr
    have h1 : ¬(r.success ∧ r.data.isSome) := by simp [hsucc]
    have h2 : truthyStr r.error = true := by simp [truthyStr, herr]
    constructor <;> simp [processCompareResponse, truthyStr, hok, h1, h2, herr]
  · intro s r hok hfail herr
    have h1 : ¬(r.success ∧ r.data.isSome) := by
      rcases hfail with h | h <;> simp [h]
    constructor <;> simp [processCompareResponse, hok, h1, herr]
  · intro s r hok hfail herr
    have h1 : ¬(r.success ∧ r.data.isSome) := by
      rcases hfail with h | h <;> simp [h]
    constructor <;> simp [processCompareResponse, hok, h1, herr]
  · intro s r hok hmsg
    constructor <;> simp [processCompareResponse, hok, hmsg]
  · intro s r hok hmsg herr
    constructor <;> simp [processCompareResponse, hok, hmsg, herr]
  · intro s r hok hmsg herr
    constructor <;> simp [processCompareResponse, hok, hmsg, herr]
  · intro s r h
    by_cases hok : r.ok
    · have h1 : ¬(r.success ∧ r.data.isSome) := by
        intro ⟨ha, hb⟩
        exact h ⟨hok, ha, hb⟩
      by_cases h2 : truthyStr r.error = true <;>
        simp [processCompareResponse, hok, h1, h2]
    · simp [processCompareResponse, hok]

/-- C4 witness: the amended theorem applied to the "no data" scenario
response, to a 2xx error body without an error field (generic fallback),
to `bothFieldsResponse`, to a non-2xx body with only an error field, and
to a non-2xx body with neither field (HTTP-status fallback), starting
from a state that has a stored result. -/
theorem compare_error_handling_witness :
    ((processCompareResponse branchChangeState noDataResponse).error = "no data" ∧
      (processCompareResponse branchChangeState noDataResponse).comparisonData = none) ∧
    ((processCompareResponse branchChangeState { noDataResponse with error := none }).error
        = "Failed to compare colleges - invalid response format" ∧
      (processCompareResponse branchChangeState
        { noDataResponse with error := none }).comparisonData = none) ∧
    ((processCompareResponse branchChangeState bothFieldsResponse).error
        = bothFieldsResponse.message.getD "" ∧
      (processCompareResponse branchChangeState bothFieldsResponse).comparisonData = none) ∧
    ((processCompareResponse branchChangeState
        { bothFieldsResponse with message := none }).error = "no data" ∧
      (processCompareResponse branchChangeState
        { bothFieldsResponse with message := none }).comparisonData = none) ∧
    ((processCompareResponse branchChangeState
        { bothFieldsResponse with message := none, error := none }).error
        = "HTTP " ++ toString (500 : Nat) ++ ": Comparison failed" ∧
      (processCompareResponse branchChangeState
        { bothFieldsResponse with message := none, error := none }).comparisonData = none) :=
  ⟨compare_error_handling.1 branchChangeState noDataResponse rfl rfl rfl,
    compare_error_handling.2.2.1 branchChangeState { noDataResponse with error := none }
      rfl (Or.inl rfl) rfl,
    compare_error_handling.2.2.2.1 branchChangeState bothFieldsResponse rfl rfl,
    compare_error_handling.2.2.2.2.1 branchChangeState
      { bothFieldsResponse with message := none } rfl rfl rfl,
    compare_error_handling.2.2.2.2.2.1 branchChangeState
      { bothFieldsResponse with message := none, error := none } rfl rfl rfl⟩

/-- C5: whenever the minimum and the maximum of all valid trend values
coincide, the computed scaling range is exactly 1, hence at least 1 and
never a zero divisor for the normalization. -/
theorem chart_range_no_div_by_zero :
    ∀ (cs : List CollegeTrend) (mn mx : ℚ),
      listMin (collectValues cs) = some mn →
      listMax (collectValues cs) = some mx →
      mn = mx →
      rangeOf mn mx = 1 ∧ rangeOf mn mx ≠ 0 := by
  intro cs mn mx hmn hmx heq
  subst heq
  constructor <;> norm_num [rangeOf]

/-- C5 witness: the range theorem applied to the single-point data set,
whose min and max both evaluate to 95. -/
theorem chart_range_no_div_by_zero_witness :
    rangeOf 95 95 = 1 ∧ rangeOf 95 95 ≠ 0 :=
  chart_range_no_div_by_zero singleValueData 95 95 rfl rfl rfl

/-- C6: trend points with an invalid (undefined, null or non-numeric)
value are excluded from the min/max scaling computation and from the
plotted line: dropping them first changes neither `allValues` (hence
neither min nor max) nor any college's `validPoints`. -/
theorem invalid_trend_values_excluded :
    (∀ cs : List CollegeTrend,
      collectValues (cs.map dropInvalidValues) = collectValues cs ∧
      listMin (collectValues (cs.map dropInvalidValues)) = listMin (collectValues cs) ∧
      listMax (collectValues (cs.map dropInvalidValues)) = listMax (collectValues cs)) ∧
    (∀ trend : List TrendPoint,
      validPoints (trend.filter hasNumValue) = validPoints trend) := by
  constructor
  · intro cs
    refine ⟨collectValues_dropInvalid cs, ?_, ?_⟩ <;> rw [collectValues_dropInvalid cs]
  · intro trend
    unfold validPoints
    rw [validPointsRaw_filter trend]

/-- C7: removing a college when exactly 2 are selected and the removed
code is actually present clears the branch list and the selected branch
and emits no branch request; when 2 or more remain after the removal,
the branch state is kept and a branch request with the remaining codes
is emitted instead. -/
theorem removeCollege_branch_state :
    (∀ (s : CompareState) (code : String), s.selectedColleges.length = 2 →
      (∃ c ∈ s.selectedColleges, c.college_code = code) →
      (removeCollege s code).1.branches = [] ∧
      (removeCollege s code).1.selectedBranch = "" ∧
      (removeCollege s code).2 = none) ∧
    (∀ (s : CompareState) (code : String),
      2 ≤ (s.selectedColleges.filter fun c => !(c.college_code == code)).length →
      (removeCollege s code).1.branches = s.branches ∧
      (removeCollege s code).1.selectedBranch = s.selectedBranch ∧
      (removeCollege s code).2 =
        some ⟨(s.selectedColleges.filter fun c => !(c.college_code == code)).map
          College.college_code⟩) := by
  constructor
  · intro s code hlen ⟨c, hc, hcode⟩
    have hdrop : (s.selectedColleges.filter fun c => !(c.college_code == code)).length
        < s.selectedColleges.length := by
      refine List.length_filter_lt_length_iff_exists.mpr ⟨c, hc, ?_⟩
      simp [hcode]
    have h : (s.selectedColleges.filter fun c => !(c.college_code == code)).length < 2 := by
      omega
    refine ⟨?_, ?_, ?_⟩ <;> simp [removeCollege, h]
  · intro s code h
    have h2 : ¬(s.selectedColleges.filter fun c => !(c.college_code == code)).length < 2 := by
      omega
    refine ⟨?_, ?_, ?_⟩ <;> simp [removeCollege, h2]

/-- C7 witness: the theorem applied to removing college A from a
two-college state and to removing college A from a three-college
state. -/
theorem removeCollege_branch_state_witness :
    ((removeCollege twoSelectedState "A").1.branches = [] ∧
      (removeCollege twoSelectedState "A").1.selectedBranch = "" ∧
      (removeCollege twoSelectedState "A").2 = none) ∧
    ((removeCollege threeSelectedState "A").1.branches = threeSelectedState.branches ∧
      (removeCollege threeSelectedState "A").1.selectedBranch
          = threeSelectedState.selectedBranch ∧
      (removeCollege threeSelectedState "A").2 =
        some ⟨(threeSelectedState.selectedColleges.filter
          fun c => !(c.college_code == "A")).map College.college_code⟩) :=
  ⟨removeCollege_branch_state.1 twoSelectedState "A" (by decide)
      ⟨collegeA, by decide, by decide⟩,
    removeCollege_branch_state.2 threeSelectedState "A" (by decide)⟩

/-- C8 counterexample: on a series with valid value 90 and one `null`
point the panel shows 45 (the `null` is coerced to 0 and still counted
in the denominator), while the arithmetic mean of the valid values is
90, refuting the claim that the shown average is the mean of the valid
values. -/
theorem average_includes_invalid_values :
    averageStat statTrend = some (JSNum.num 45) ∧
    validValuesMean statTrend = some 90 ∧
    JSNum.num (45 : ℚ) ≠ JSNum.num 90 := by
  refine ⟨?_, ?_, by decide⟩
  · norm_num [averageStat, statTrend, TrendVal.coerce, jsAdd, jsDivNat]
  · norm_num [validValuesMean, statTrend, TrendVal.toNum?, List.filterMap_cons,
      List.filterMap_nil]

/-- C8 (amended): the Average cell divides the coerced sum of all trend
values by the total point count, so it agrees with the arithmetic mean
of the valid values exactly when every point of the series is numeric;
a series with no elements displays the "N/A" placeholder instead of
performing arithmetic. -/
theorem averageStat_behavior :
    (∀ trend : List TrendPoint, (∀ p ∈ trend, (TrendVal.toNum? p.value).isSome = true) →
      averageStat trend = (validValuesMean trend).map JSNum.num) ∧
    averageStat [] = none := by
  constructor
  · intro trend h
    cases trend with
    | nil => rfl
    | cons p ps =>
      have hfl := filterMap_length_all_valid (p :: ps) h
      have hfold := foldl_jsAdd_valid (p :: ps) 0 h
      simp only [averageStat, validValuesMean, hfold, hfl, jsDivNat]
      simp
  · rfl

/-- C8 witness: the amended theorem applied to a concrete all-numeric
series and to the empty series. -/
theorem averageStat_behavior_witness :
    averageStat allValidTrend = (validValuesMean allValidTrend).map JSNum.num ∧
    averageStat [] = none :=
  ⟨averageStat_behavior.1 allValidTrend (by decide), averageStat_behavior.2⟩

/-- C9: every plotted point of the tolerant renderer has its vertical
coordinate inside the chart area `[padding.top, padding.top +
chartHeight]`, because each valid value lies between the global min and
max and the range is at least their difference. -/
theorem plotted_y_within_chart_area :
    ∀ (cs : List CollegeTrend) (mn mx : ℚ),
      listMin (collectValues cs) = some mn →
      listMax (collectValues cs) = some mx →
      ∀ c ∈ cs, ∀ p ∈ validPoints c.trend,
        paddingTop ≤ pointY mn mx p.2 ∧ pointY mn mx p.2 ≤ paddingTop + chartHeight := by
  intro cs mn mx hmn hmx c hc p hp
  obtain ⟨y, v⟩ := p
  have hvmem : v ∈ collectValues cs := validPoints_value_mem cs c hc y v hp
  have h1 : mn ≤ v := listMin_le _ _ hmn v hvmem
  have h2 : v ≤ mx := le_listMax _ _ hmx v hvmem
  have hrange : (0 : ℚ) < rangeOf mn mx := lt_of_lt_of_le one_pos (le_max_right _ _)
  have hsub : mx - mn ≤ rangeOf mn mx := le_max_left _ _
  have hfrac0 : 0 ≤ (v - mn) / rangeOf mn mx := div_nonneg (by linarith) (le_of_lt hrange)
  have hfrac1 : (v - mn) / rangeOf mn mx ≤ 1 := by
    rw [div_le_one hrange]
    linarith
  have hch : (0 : ℚ) ≤ chartHeight := by
    norm_num [chartHeight, graphHeight, paddingTop, paddingBottom]
  constructor
  · have hmul : (v - mn) / rangeOf mn mx * chartHeight ≤ chartHeight :=
      mul_le_of_le_one_left hch hfrac1
    simp only [pointY]
    linarith
  · have hmul : 0 ≤ (v - mn) / rangeOf mn mx * chartHeight := mul_nonneg hfrac0 hch
    simp only [pointY]
    linarith

/-- C9 witness: the chart-area theorem applied to the single-point data
set, whose plotted point (2021, 95) is mapped with min = max = 95. -/
theorem plotted_y_within_chart_area_witness :
    paddingTop ≤ pointY 95 95 ((2021 : ℚ), (95 : ℚ)).2 ∧
    pointY 95 95 ((2021 : ℚ), (95 : ℚ)).2 ≤ paddingTop + chartHeight :=
  plotted_y_within_chart_area singleValueData 95 95 rfl rfl singleValueCollege
    (by simp [singleValueData]) ((2021 : ℚ), (95 : ℚ))
    (List.mem_mergeSort.mpr (by decide))

/-- C10: `handleSearch` with a query of length exactly 1 only stores the
query (no request, colleges, error and loading untouched), while length
0 or length at least 2 emits a fetch of that query. -/
theorem handleSearch_short_query_frame :
    (∀ (s : CompareState) (q : String), q.length = 1 →
      handleSearch s q = ({ s with searchQuery := q }, none)) ∧
    (∀ (s : CompareState) (q : String), q.length = 0 ∨ 2 ≤ q.length →
      (handleSearch s q).2 = some q) := by
  constructor
  · intro s q h
    simp [handleSearch, h]
  · intro s q h
    have h2 : ¬(q.length < 2 ∧ 0 < q.length) := by omega
    simp [handleSearch, h2]

/-- C10 witness: the frame theorem applied to the one-character query
"p" and the fetch clause applied to the empty and a two-character
query. -/
theorem handleSearch_short_query_frame_witness :
    handleSearch initialState "p" = ({ initialState with searchQuery := "p" }, none) ∧
    (handleSearch initialState "").2 = some "" ∧
    (handleSearch initialState "pu").2 = some "pu" :=
  ⟨handleSearch_short_query_frame.1 initialState "p" (by decide),
    handleSearch_short_query_frame.2 initialState "" (Or.inl (by decide)),
    handleSearch_short_query_frame.2 initialState "pu" (Or.inr (by decide))⟩

end CollegePredictor
